import Mathlib

/-!
Shallow embedding of the Dream Dash simulation core.

Three variants are modelled from the repository sources:
  - `DreamDash.Enhanced2D` : the enhanced 2D canvas game
    (src/dream_dash_frontend/src/components/GameCanvas.jsx) with lives,
    levels, wind, storms, stars and a restart command.
  - `DreamDash.Game3D` : the 3D endless runner (src/unnamed/part_000).
  - `DreamDash.Basic2D` : the basic 2D loop (src/unnamed/part_001).

Numbers are modelled as rationals.  Calls to `Math.random()` are modelled
as explicit inputs (fields of an `Rng` record), and the `setTimeout`
handles of the 2D variant are modelled as pending flags, with the timer
callback body exposed as its own step function.
-/

namespace DreamDash

/-- JS helper `clamp(v, min, max) = Math.max(min, Math.min(max, v))`
from src/unnamed/part_000. -/
def clamp (v lo hi : ℚ) : ℚ := max lo (min hi v)

/-- The two sequential clamp statements
`if (x < min) x = min; if (x > max) x = max` used by the enhanced 2D
update for the horizontal bounds. -/
def clampLoHi (lo hi x : ℚ) : ℚ :=
  let x1 := if x < lo then lo else x
  if x1 > hi then hi else x1

/-- `rectCircleColliding` from GameCanvas.jsx: closest point of the rect
to the circle center, squared distance against squared radius. -/
def rectCircleColliding (px py pw ph cx cy r : ℚ) : Bool :=
  let closestX := max px (min cx (px + pw))
  let closestY := max py (min cy (py + ph))
  let dx := cx - closestX
  let dy := cy - closestY
  decide (dx * dx + dy * dy ≤ r * r)

/-- `rectRectOverlap` from GameCanvas.jsx. -/
def rectRectOverlap (ax ay aw ah bx bY bw bh : ℚ) : Bool :=
  decide (ax < bx + bw) && decide (ax + aw > bx) &&
  decide (ay < bY + bh) && decide (ay + ah > bY)

namespace Enhanced2D

/-- Player record of the enhanced 2D variant (GameCanvas.jsx `playerRef`). -/
structure Player where
  x : ℚ
  y : ℚ
  size : ℚ
  vy : ℚ
  gravity : ℚ
  jumpPower : ℚ
  grounded : Bool
  speed : ℚ
  maxX : ℚ
  minX : ℚ
  ceilingY : ℚ
  deriving DecidableEq

/-- A collectible star entity. -/
structure Star where
  x : ℚ
  y : ℚ
  r : ℚ
  speed : ℚ
  deriving DecidableEq

/-- A decorative cloud entity. -/
structure Cloud where
  x : ℚ
  y : ℚ
  w : ℚ
  h : ℚ
  speed : ℚ
  deriving DecidableEq

/-- A storm (hazard) entity. -/
structure Storm where
  x : ℚ
  y : ℚ
  speed : ℚ
  deriving DecidableEq

/-- Directional inputs read by the tick (ArrowLeft / ArrowRight held). -/
structure Input where
  left : Bool
  right : Bool
  deriving DecidableEq

/-- The values drawn from `Math.random()` during one tick, supplied as
explicit inputs.  Indexed fields stand for the per-entity draws inside
the forEach loops. -/
structure Rng where
  stormSpawnRoll : ℚ
  stormY : ℚ
  stormSpeed : ℚ
  windRoll : ℚ
  windForceRoll : ℚ
  cloudX : ℕ → ℚ
  starX : ℕ → ℚ
  starY : ℕ → ℚ
  stormX : ℕ → ℚ
  collectX : ℕ → ℚ
  collectY : ℕ → ℚ

/-- Full simulation state of the enhanced 2D variant.  The three
`setTimeout` handles (wind expiry, flash decay, storm-hit cooldown) are
modelled as pending flags. -/
structure GameState where
  player : Player
  stars : List Star
  clouds : List Cloud
  storms : List Storm
  score : ℕ
  starsCollected : ℕ
  level : ℕ
  nextLevelAt : ℕ
  lives : ℤ
  gameOver : Bool
  windForce : ℚ
  flashAlpha : ℚ
  canTakeStormDamage : Bool
  windTimeout : Bool
  flashTimeout : Bool
  stormHitCooldown : Bool

/-- Initial player (GameCanvas.jsx `playerRef` initialization and the
reset inside `restartGame`, with `maxX = W - 30`). -/
def initPlayer (W : ℚ) : Player :=
  ⟨100, 250, 30, 0, 0.8, -12, true, 2.5, W - 30, 0, 10⟩

/-- Star initialization from `initEntities`. -/
def initStars (ry : ℕ → ℚ) : List Star :=
  (List.range 10).map fun (i : ℕ) => ⟨(i : ℚ) * 80 + 100, 100 + ry i * 100, 5, 1.5⟩

/-- Cloud initialization from `initEntities`. -/
def initClouds (ry : ℕ → ℚ) : List Cloud :=
  (List.range 8).map fun (i : ℕ) => ⟨(i : ℚ) * 100, 220 + ry i * 30, 50, 20, 0.5⟩

/-- `restartGame` from GameCanvas.jsx: resets session state, world
entities and the storm-hit cooldown, then calls `initEntities`.  The
pending wind and flash timeouts are NOT cleared by the source. -/
def restartGame (W : ℚ) (cloudY starY : ℕ → ℚ) (g : GameState) : GameState :=
  { player := initPlayer W
    stars := initStars starY
    clouds := initClouds cloudY
    storms := []
    score := 0
    starsCollected := 0
    level := 1
    nextLevelAt := 5
    lives := 3
    gameOver := false
    windForce := 0
    flashAlpha := 0
    canTakeStormDamage := true
    windTimeout := g.windTimeout
    flashTimeout := g.flashTimeout
    stormHitCooldown := false }

/-- The `"r" / "R"` branch of `onKeyDown`: it calls `restartGame`
unconditionally, in any lifecycle state. -/
def onKeyDownR (W : ℚ) (cloudY starY : ℕ → ℚ) (g : GameState) : GameState :=
  restartGame W cloudY starY g

/-- The wind `setTimeout` callback body: zero the force, drop the handle. -/
def windTimeoutFire (g : GameState) : GameState :=
  { g with windForce := 0, windTimeout := false }

/-- Player physics portion of `update` (GameCanvas.jsx lines 506-537):
left/right movement, X clamp, gravity integration, wind push, second X
clamp, ceiling clamp, ground clamp. -/
def physicsStep (left right : Bool) (windForce : ℚ) (p : Player) : Player :=
  let x1 := if left then p.x - p.speed else p.x
  let x2 := if right then x1 + p.speed else x1
  let x3 := clampLoHi p.minX p.maxX x2
  let vy1 := p.vy + p.gravity
  let y1 := p.y + vy1
  let x4 := clampLoHi p.minX p.maxX (x3 + windForce)
  let y2 := if y1 < p.ceilingY then p.ceilingY else y1
  let vy2 := if y1 < p.ceilingY then (if vy1 < 0 then 0 else vy1) else vy1
  if y2 + p.size > 280 then
    { p with x := x4, y := 280 - p.size, vy := 0, grounded := true }
  else
    { p with x := x4, y := y2, vy := vy2, grounded := false }

/-- Star scrolling portion of `drawStars`: drift left, wrap to the right
edge with fresh random vertical position once fully off screen. -/
def scrollStars (W : ℚ) (rx ry : ℕ → ℚ) : ℕ → List Star → List Star
  | _, [] => []
  | i, s :: rest =>
    let x1 := s.x - s.speed
    let s' := if x1 + s.r < 0
      then { s with x := W + rx i * 200, y := 80 + ry i * 200 }
      else { s with x := x1 }
    s' :: scrollStars W rx ry (i + 1) rest

/-- Cloud scrolling portion of `drawClouds`. -/
def scrollClouds (W : ℚ) (rx : ℕ → ℚ) : ℕ → List Cloud → List Cloud
  | _, [] => []
  | i, c :: rest =>
    let x1 := c.x - c.speed
    let c' := if x1 + c.w < 0 then { c with x := W + rx i * 200 } else { c with x := x1 }
    c' :: scrollClouds W rx (i + 1) rest

/-- Storm scrolling portion of `drawStorms`. -/
def scrollStorms (W : ℚ) (rx : ℕ → ℚ) : ℕ → List Storm → List Storm
  | _, [] => []
  | i, s :: rest =>
    let x1 := s.x - s.speed
    let s' := if x1 + 40 < 0 then { s with x := W + rx i * 200 } else { s with x := x1 }
    s' :: scrollStorms W rx (i + 1) rest

/-- Result of the star collision pass: updated star list and how many
stars were collected this tick. -/
structure StarsOut where
  stars : List Star
  collected : ℕ

/-- `handleStarCollisions`: every star is tested (no early exit); an
overlapping star scores and is respawned off screen to the right at a
fresh random position. -/
def starPass (W : ℚ) (rx ry : ℕ → ℚ) (p : Player) : ℕ → List Star → StarsOut
  | _, [] => ⟨[], 0⟩
  | i, s :: rest =>
    let out := starPass W rx ry p (i + 1) rest
    if rectCircleColliding p.x p.y p.size p.size s.x s.y s.r then
      ⟨{ s with x := W + 40 + rx i * 200, y := 80 + ry i * 200 } :: out.stars,
       out.collected + 1⟩
    else ⟨s :: out.stars, out.collected⟩

/-- The slice of state read and written by `handleStormCollisions`. -/
structure StormPassState where
  player : Player
  lives : ℤ
  gameOver : Bool
  canTake : Bool
  cooldownPending : Bool

/-- The body of the `handleStormCollisions` loop for one storm: if the
storm bounding rect overlaps the player, decrement lives once per
invulnerability window (setting game over when they reach zero) and
always apply the pushback nudge `vy += -2; x -= 2`. -/
def stormStep (st : StormPassState) (stm : Storm) : StormPassState :=
  if rectRectOverlap st.player.x st.player.y st.player.size st.player.size
      (stm.x - 40) (stm.y - 20) 80 40 then
    let st2 :=
      if st.canTake then
        { st with lives := st.lives - 1
                  gameOver := st.gameOver || decide (st.lives - 1 ≤ 0)
                  canTake := false
                  cooldownPending := true }
      else st
    { st2 with player := { st2.player with vy := st2.player.vy + (-2), x := st2.player.x - 2 } }
  else st

/-- `handleStormCollisions`: the loop over all storms. -/
def stormPass (st : StormPassState) : List Storm → StormPassState
  | [] => st
  | stm :: rest => stormPass (stormStep st stm) rest

/-- The storm-hit cooldown `setTimeout` callback body: damage becomes
possible again and the handle is dropped. -/
def stormCooldownFire (st : StormPassState) : StormPassState :=
  { st with canTake := true, cooldownPending := false }

/-- `computerControl` (the AI event director): occasionally spawn a new
storm at the right edge, capped by a level-scaled maximum, and
occasionally start a wind gust, replacing the current force and wind
timer unconditionally. -/
def computerControl (W : ℚ) (r : Rng) (g : GameState) : GameState :=
  let maxStorms : ℕ := min (2 + g.level / 2) 5
  let g1 :=
    if r.stormSpawnRoll < 0.01 ∧ g.storms.length < maxStorms then
      { g with storms := g.storms ++ [⟨W, 80 + r.stormY * 120, 1.6 + r.stormSpeed * 0.8 + (g.level : ℚ) * 0.1⟩] }
    else g
  if r.windRoll < 0.002 then
    { g1 with windForce := (r.windForceRoll - 0.5) * (2 + (g.level : ℚ) * 0.2), windTimeout := true }
  else g1

/-- `handleStarCollisions` applied to the whole game state: runs the
star pass against the current player, adds the collected count to score
and starsCollected, and triggers the flash. -/
def handleStarCollisions (W : ℚ) (r : Rng) (g : GameState) : GameState :=
  let so := starPass W r.collectX r.collectY g.player 0 g.stars
  { g with stars := so.stars
           score := g.score + so.collected
           starsCollected := g.starsCollected + so.collected
           flashAlpha := if 0 < so.collected then 0.35 else g.flashAlpha
           flashTimeout := if 0 < so.collected then true else g.flashTimeout }

/-- `handleStormCollisions` applied to the whole game state. -/
def handleStormCollisions (g : GameState) : GameState :=
  let sp := stormPass ⟨g.player, g.lives, g.gameOver, g.canTakeStormDamage, g.stormHitCooldown⟩ g.storms
  { g with player := sp.player, lives := sp.lives, gameOver := sp.gameOver,
           canTakeStormDamage := sp.canTake, stormHitCooldown := sp.cooldownPending }

/-- The state after the first half of the tick: event director
(`computerControl`), entity scrolling, and the player physics step. -/
def preCollisionState (W : ℚ) (inp : Input) (r : Rng) (g : GameState) : GameState :=
  let g0 := computerControl W r g
  { g0 with clouds := scrollClouds W r.cloudX 0 g0.clouds
            stars := scrollStars W r.starX r.starY 0 g0.stars
            storms := scrollStorms W r.stormX 0 g0.storms
            player := physicsStep inp.left inp.right g0.windForce g0.player }

/-- One simulation tick of the enhanced 2D variant (the `update`
function): event director (`computerControl`), entity scrolling, player
physics, then — only while playing — the star and storm collision
passes, and finally the flash overlay decay. -/
def update (W : ℚ) (inp : Input) (r : Rng) (g : GameState) : GameState :=
  let g1 := preCollisionState W inp r g
  let g2 := if g1.gameOver then g1 else handleStormCollisions (handleStarCollisions W r g1)
  { g2 with flashAlpha := if 0 < g2.flashAlpha then max 0 (g2.flashAlpha - 0.04) else g2.flashAlpha }

end Enhanced2D

namespace Game3D

/-- CONFIG.baseForwardSpeed. -/
def baseForwardSpeed : ℚ := 0.12
/-- CONFIG.worldWidth. -/
def worldWidth : ℚ := 8
/-- CONFIG.player.radius. -/
def playerRadius : ℚ := 0.35
/-- CONFIG.player.jumpVelocity. -/
def jumpVelocity : ℚ := 0.23
/-- CONFIG.player.gravity. -/
def gravity : ℚ := -0.015
/-- CONFIG.player.moveSpeed. -/
def moveSpeed : ℚ := 0.12
/-- CONFIG.player.minX. -/
def pMinX : ℚ := -3
/-- CONFIG.player.maxX. -/
def pMaxX : ℚ := 3
/-- CONFIG.player.startY (also the ground line of the runner). -/
def startY : ℚ := 0.6
/-- CONFIG.star.radius. -/
def starRadius : ℚ := 0.3
/-- CONFIG.wind.chance. -/
def windChance : ℚ := 0.002
/-- CONFIG.wind.durationMs. -/
def windDurationMs : ℚ := 1800
/-- CONFIG.wind.maxForce. -/
def windMaxForce : ℚ := 0.06

/-- A 3D vector, as the {x, y, z} objects of the source. -/
structure Vec3 where
  x : ℚ
  y : ℚ
  z : ℚ
  deriving DecidableEq

/-- `sphereAabbIntersect` from src/unnamed/part_000. -/
def sphereAabbIntersect (center : Vec3) (radius : ℚ) (boxCenter : Vec3) (halfSize : Vec3) : Bool :=
  let dx := max (|center.x - boxCenter.x| - halfSize.x) 0
  let dy := max (|center.y - boxCenter.y| - halfSize.y) 0
  let dz := max (|center.z - boxCenter.z| - halfSize.z) 0
  decide (dx * dx + dy * dy + dz * dz ≤ radius * radius)

/-- CONFIG.storm.size, the AABB half-extents of a storm. -/
def stormHalf : Vec3 := ⟨1.4, 0.8, 1.2⟩

/-- Player state of the 3D runner (`playerRef`). -/
structure Player3 where
  x : ℚ
  y : ℚ
  z : ℚ
  vy : ℚ
  grounded : Bool
  deriving DecidableEq

/-- A star or storm entity of the 3D runner. -/
structure Entity3 where
  x : ℚ
  y : ℚ
  z : ℚ
  active : Bool
  deriving DecidableEq

/-- Wind state of the 3D runner (`windRef`): a force and its expiry
timestamp. -/
structure Wind where
  force : ℚ
  untilMs : ℚ
  deriving DecidableEq

/-- Held directional inputs. -/
structure Input3 where
  left : Bool
  right : Bool
  up : Bool
  down : Bool
  deriving DecidableEq

/-- Full state of the 3D runner. -/
structure State where
  player : Player3
  wind : Wind
  stars : List Entity3
  storms : List Entity3
  score : ℕ
  level : ℕ
  target : ℕ
  speed : ℚ
  gameOver : Bool
  message : String

/-- Random draws used by one frame of the 3D runner, as explicit inputs. -/
structure Rng3 where
  windRoll : ℚ
  windForceRoll : ℚ
  starX : ℕ → ℚ
  starY : ℕ → ℚ
  starZ : ℕ → ℚ
  stormX : ℕ → ℚ
  stormY : ℕ → ℚ
  stormZ : ℕ → ℚ

/-- The player-control and physics block of the `Runner` frame (runs
only while playing): lateral input, wind push, X clamp, jump, quick
drop, gravity integration, ground collision. -/
def playerStep (inp : Input3) (windForce : ℚ) (p : Player3) : Player3 :=
  let lateral : ℚ := (if inp.left then -1 else 0) + (if inp.right then 1 else 0)
  let x1 := p.x + lateral * moveSpeed
  let x2 := x1 + windForce
  let x3 := clamp x2 pMinX pMaxX
  let vy1 := if inp.up && p.grounded then jumpVelocity else p.vy
  let grounded1 := if inp.up && p.grounded then false else p.grounded
  let vy2 := if inp.down then vy1 + gravity * 0.4 else vy1
  let vy3 := vy2 + gravity
  let y1 := p.y + vy3
  if y1 ≤ startY then ⟨x3, startY, p.z, 0, true⟩
  else ⟨x3, y1, p.z, vy3, grounded1⟩

/-- Star scrolling of the `Runner` frame: advance along +Z by the shared
forward speed and respawn far ahead once past the camera (z > 3). -/
def scrollStars3 (forward : ℚ) (r : Rng3) : ℕ → List Entity3 → List Entity3
  | _, [] => []
  | i, s :: rest =>
    let z1 := s.z + forward
    let s' :=
      if z1 > 3 then
        ⟨(r.starX i * worldWidth - worldWidth / 2) * 0.6, 0.8 + r.starY i * 1.1,
         -60 - r.starZ i * 40, true⟩
      else { s with z := z1 }
    s' :: scrollStars3 forward r (i + 1) rest

/-- Storm scrolling of the `Runner` frame (at 1.1 times the forward
speed). -/
def scrollStorms3 (forward : ℚ) (r : Rng3) : ℕ → List Entity3 → List Entity3
  | _, [] => []
  | i, s :: rest =>
    let z1 := s.z + forward * 1.1
    let s' :=
      if z1 > 3 then
        ⟨(r.stormX i * worldWidth - worldWidth / 2) * 0.6, 1 + r.stormY i * 1.3,
         -80 - r.stormZ i * 60, true⟩
      else { s with z := z1 }
    s' :: scrollStorms3 forward r (i + 1) rest

/-- The star collision pass of the `Runner` frame: an active star hit by
the player is only marked inactive (it is not repositioned here); the
count of hits is returned for the score update. -/
def collectPass (p : Player3) : List Entity3 → List Entity3 × ℕ
  | [] => ([], 0)
  | s :: rest =>
    let out := collectPass p rest
    if s.active && sphereAabbIntersect ⟨p.x, p.y, p.z⟩ starRadius ⟨s.x, s.y, s.z⟩ ⟨0.25, 0.25, 0.25⟩ then
      ({ s with active := false } :: out.1, out.2 + 1)
    else (s :: out.1, out.2)

/-- The storm collision pass of the `Runner` frame: true when some
active storm intersects the player sphere. -/
def stormHit (p : Player3) (storms : List Entity3) : Bool :=
  storms.any fun st =>
    st.active && sphereAabbIntersect ⟨p.x, p.y, p.z⟩ playerRadius ⟨st.x, st.y, st.z⟩ stormHalf

/-- The wind-spawn branch of the `Runner` frame: only while playing,
only when the random roll hits, and only once the previous gust has
expired (`now > until`) is a fresh gust started, with a random signed
force and a full duration from the current time. -/
def windSpawn (now : ℚ) (r : Rng3) (g : State) : Wind :=
  if !g.gameOver && decide (r.windRoll < windChance) && decide (now > g.wind.untilMs) then
    ⟨(r.windForceRoll * 2 - 1) * windMaxForce, now + windDurationMs⟩
  else g.wind

/-- The wind-expiry line of the `Runner` frame: the force is zeroed when
the current time is strictly past the stored expiry. -/
def windExpire (now : ℚ) (w : Wind) : Wind :=
  if now > w.untilMs then { w with force := 0 } else w

/-- One frame of the 3D `Runner` loop: frames beyond the maximum delta
are skipped entirely; otherwise the wind gust may spawn (only once the
previous gust expired), the wind is zeroed strictly after its expiry,
the player block runs while playing, the world scrolls, and — while
playing — the star and storm collision passes run. -/
def runnerTick (delta now : ℚ) (inp : Input3) (r : Rng3) (g : State) : State :=
  if delta > 0.05 then g else
  let wind2 := windExpire now (windSpawn now r g)
  let p1 := if g.gameOver then g.player else playerStep inp wind2.force g.player
  let forward := g.speed + min ((g.level : ℚ) * 0.003) 0.05
  let stars1 := scrollStars3 forward r 0 g.stars
  let storms1 := scrollStorms3 forward r 0 g.storms
  if g.gameOver then
    { g with wind := wind2, player := p1, stars := stars1, storms := storms1 }
  else
    let so := collectPass p1 stars1
    let hit := stormHit p1 storms1
    { g with wind := wind2, player := p1, stars := so.1, storms := storms1,
             score := g.score + so.2,
             gameOver := hit,
             message := if hit then "Game Over" else g.message }

/-- Initial player of the 3D runner. -/
def initPlayer3 : Player3 := ⟨0, startY, 2, 0, true⟩

/-- `resetEntities`: stars scattered ahead and storms approaching, at
fresh random positions. -/
def resetEntities (r : Rng3) : List Entity3 × List Entity3 :=
  ((List.range 14).map fun (i : ℕ) =>
     ⟨(r.starX i * worldWidth - worldWidth / 2) * 0.6, 0.8 + r.starY i * 1.1,
      -(i : ℚ) * 6 - 10 - r.starZ i * 6, true⟩,
   (List.range 8).map fun (i : ℕ) =>
     ⟨(r.stormX i * worldWidth - worldWidth / 2) * 0.6, 1.2 + r.stormY i * 0.8,
      -(i : ℚ) * 12 - 20 - r.stormZ i * 16, true⟩)

/-- `restart` of the 3D variant: resets every piece of session state,
including the wind force and its expiry timestamp, and re-randomizes
all entities.  It reads nothing from the previous state. -/
def restart (r : Rng3) (_g : State) : State :=
  let es := resetEntities r
  { player := initPlayer3
    wind := ⟨0, 0⟩
    stars := es.1
    storms := es.2
    score := 0
    level := 1
    target := 8
    speed := baseForwardSpeed
    gameOver := false
    message := "" }

/-- The `"r" / "R"` key handler (and the Restart button): both invoke
`restart` unconditionally, in any lifecycle state. -/
def onKeyR (r : Rng3) (g : State) : State :=
  restart r g

end Game3D

namespace Basic2D

/-- Player record of the basic 2D variant (src/unnamed/part_001). -/
structure Player where
  x : ℚ
  y : ℚ
  size : ℚ
  vy : ℚ
  gravity : ℚ
  jumpPower : ℚ
  grounded : Bool
  deriving DecidableEq

/-- The player-physics portion of `update` in the basic 2D variant:
gravity integration, wind push, ground clamp (no ceiling, no X clamp). -/
def update (windForce : ℚ) (p : Player) : Player :=
  let vy1 := p.vy + p.gravity
  let y1 := p.y + vy1
  let x1 := p.x + windForce
  if y1 + p.size > 280 then
    { p with x := x1, y := 280 - p.size, vy := 0, grounded := true }
  else
    { p with x := x1, y := y1, vy := vy1 }

end Basic2D

namespace Scenario

/-- Random inputs whose probability rolls all miss and whose indexed
draws are zero. -/
def rngMiss : Enhanced2D.Rng :=
  ⟨1, 0, 0, 1, 1, fun _ => 0, fun _ => 0, fun _ => 0, fun _ => 0, fun _ => 0, fun _ => 0⟩

/-- No directional input held (2D). -/
def inputNone : Enhanced2D.Input := ⟨false, false⟩

/-- A reference playing state of the enhanced 2D variant with no
entities spawned. -/
def base2D : Enhanced2D.GameState :=
  { player := Enhanced2D.initPlayer 600
    stars := []
    clouds := []
    storms := []
    score := 0
    starsCollected := 0
    level := 1
    nextLevelAt := 5
    lives := 3
    gameOver := false
    windForce := 0
    flashAlpha := 0
    canTakeStormDamage := true
    windTimeout := false
    flashTimeout := false
    stormHitCooldown := false }

/-- 3D random inputs whose wind roll misses and whose indexed draws are
zero. -/
def rng3Miss : Game3D.Rng3 :=
  ⟨1, 1, fun _ => 0, fun _ => 0, fun _ => 0, fun _ => 0, fun _ => 0, fun _ => 0⟩

/-- 3D random inputs whose wind roll hits. -/
def rng3WindHit : Game3D.Rng3 := { rng3Miss with windRoll := 0 }

/-- No directional input held (3D). -/
def input3None : Game3D.Input3 := ⟨false, false, false, false⟩

/-- A reference playing state of the 3D runner with no entities. -/
def base3D : Game3D.State :=
  { player := Game3D.initPlayer3
    wind := ⟨0, 0⟩
    stars := []
    storms := []
    score := 0
    level := 1
    target := 8
    speed := Game3D.baseForwardSpeed
    gameOver := false
    message := "" }

/-- Player resting at the left bound with a storm overlapping it. -/
def c1Storm : Enhanced2D.GameState :=
  { base2D with player := { Enhanced2D.initPlayer 600 with x := 0 }
                storms := [⟨20, 250, 2⟩] }

/-- A game-over state of the enhanced 2D variant. -/
def c2Over : Enhanced2D.GameState := { base2D with gameOver := true }

/-- One star placed exactly at the player's position (2D). -/
def c3Star2D : Enhanced2D.GameState := { base2D with stars := [⟨100, 250, 5, 1.5⟩] }

/-- One star placed exactly at the player's position (3D). -/
def c3Star3D : Game3D.State := { base3D with stars := [⟨0, 0.6, 2, true⟩] }

/-- A state with both the wind and the flash timers pending. -/
def c4Pending : Enhanced2D.GameState :=
  { base2D with gameOver := true, score := 7, windForce := 1, flashAlpha := 0.35
                windTimeout := true, flashTimeout := true, stormHitCooldown := true }

/-- Storm list overlapping the reference player (C5 scenario). -/
def c5Storms : List Enhanced2D.Storm := [⟨100, 250, 2⟩]

/-- Initial storm-pass slice: reference player, 3 lives, damage possible. -/
def c5Start : Enhanced2D.StormPassState := ⟨Enhanced2D.initPlayer 600, 3, false, true, false⟩

/-- Random inputs that miss every probability roll but draw the given
values for the collected-star respawn position. -/
def rngCollect (cx cy : ℚ) : Enhanced2D.Rng :=
  { rngMiss with collectX := fun _ => cx, collectY := fun _ => cy }

/-- 2D random inputs whose wind roll hits. -/
def rng2WindHit : Enhanced2D.Rng := { rngMiss with windRoll := 0 }

/-- State after the first hazard hit of the C5 scenario. -/
def c5Hit1 : Enhanced2D.StormPassState := Enhanced2D.stormPass c5Start c5Storms

/-- A hazard overlap inside the invulnerability window (no cooldown
expiry since the first hit). -/
def c5HitInWindow : Enhanced2D.StormPassState := Enhanced2D.stormPass c5Hit1 c5Storms

/-- Second hit, after the invulnerability window expired. -/
def c5Hit2 : Enhanced2D.StormPassState :=
  Enhanced2D.stormPass (Enhanced2D.stormCooldownFire c5Hit1) c5Storms

/-- Third hit, after the invulnerability window expired again. -/
def c5Hit3 : Enhanced2D.StormPassState :=
  Enhanced2D.stormPass (Enhanced2D.stormCooldownFire c5Hit2) c5Storms

/-- A gust of force 0.05 expiring at time 1000. -/
def c6Wind : Game3D.State := { base3D with wind := ⟨0.05, 1000⟩ }

/-- A gust of force 0.05 active until time 5000. -/
def c7Wind : Game3D.State := { base3D with wind := ⟨0.05, 5000⟩ }

end Scenario

/-!  Helper lemmas about the embedded operations. -/

/-- Sequential lower and upper clamp lands in the interval. -/
theorem clampLoHi_mem (lo hi x : ℚ) (h : lo ≤ hi) :
    lo ≤ clampLoHi lo hi x ∧ clampLoHi lo hi x ≤ hi := by
  simp only [clampLoHi]
  split_ifs <;> constructor <;> linarith

/-- The max-min clamp lands in the interval. -/
theorem clamp_mem (v lo hi : ℚ) (h : lo ≤ hi) :
    lo ≤ clamp v lo hi ∧ clamp v lo hi ≤ hi :=
  ⟨le_max_left _ _, max_le h (min_le_left _ _)⟩

namespace Enhanced2D

/-- The physics step preserves size and the X bounds, leaves the player
at or above the ground line, and — when the bounds are consistent —
clamps X into them. -/
theorem physicsStep_spec (l r : Bool) (w : ℚ) (p : Player) :
    (physicsStep l r w p).size = p.size ∧
    (physicsStep l r w p).minX = p.minX ∧
    (physicsStep l r w p).maxX = p.maxX ∧
    (physicsStep l r w p).y + p.size ≤ 280 ∧
    (p.minX ≤ p.maxX → p.minX ≤ (physicsStep l r w p).x ∧ (physicsStep l r w p).x ≤ p.maxX) := by
  simp only [physicsStep]
  split_ifs <;>
    refine ⟨rfl, rfl, rfl, ?_, fun h => clampLoHi_mem p.minX p.maxX _ h⟩ <;>
    simp only [] <;> linarith

/-- One storm-loop step moves the player horizontally by at most 2 to
the left and touches no other positional field. -/
theorem stormStep_spec (st : StormPassState) (stm : Storm) :
    (stormStep st stm).player.y = st.player.y ∧
    (stormStep st stm).player.size = st.player.size ∧
    (stormStep st stm).player.minX = st.player.minX ∧
    (stormStep st stm).player.maxX = st.player.maxX ∧
    (stormStep st stm).player.x ≤ st.player.x ∧
    st.player.x - 2 ≤ (stormStep st stm).player.x := by
  simp only [stormStep]
  split_ifs <;> refine ⟨rfl, rfl, rfl, rfl, ?_, ?_⟩ <;> first
    | linarith
    | (simp only []; linarith)

/-- The whole storm pass moves the player horizontally by at most 2 per
storm to the left and touches no other positional field. -/
theorem stormPass_player_pos (l : List Storm) (st : StormPassState) :
    (stormPass st l).player.y = st.player.y ∧
    (stormPass st l).player.size = st.player.size ∧
    (stormPass st l).player.minX = st.player.minX ∧
    (stormPass st l).player.maxX = st.player.maxX ∧
    (stormPass st l).player.x ≤ st.player.x ∧
    st.player.x - 2 * (l.length : ℚ) ≤ (stormPass st l).player.x := by
  induction l generalizing st with
  | nil => exact ⟨rfl, rfl, rfl, rfl, le_rfl, by simp [stormPass]⟩
  | cons stm rest ih =>
    obtain ⟨hy, hs, hmn, hmx, hxle, hxge⟩ := stormStep_spec st stm
    obtain ⟨iy, isz, imn, imx, ixle, ixge⟩ := ih (stormStep st stm)
    simp only [stormPass, List.length_cons]
    refine ⟨iy.trans hy, isz.trans hs, imn.trans hmn, imx.trans hmx,
      ixle.trans hxle, ?_⟩
    push_cast
    linarith

/-- The event director never touches the player, the lifecycle fields or
the collision bookkeeping, and adds at most one storm. -/
theorem computerControl_keeps (W : ℚ) (r : Rng) (g : GameState) :
    (computerControl W r g).player = g.player ∧
    (computerControl W r g).gameOver = g.gameOver ∧
    (computerControl W r g).score = g.score ∧
    (computerControl W r g).starsCollected = g.starsCollected ∧
    (computerControl W r g).lives = g.lives ∧
    (computerControl W r g).level = g.level ∧
    (computerControl W r g).stars = g.stars ∧
    (computerControl W r g).flashAlpha = g.flashAlpha ∧
    (computerControl W r g).canTakeStormDamage = g.canTakeStormDamage ∧
    (computerControl W r g).stormHitCooldown = g.stormHitCooldown ∧
    (computerControl W r g).storms.length ≤ g.storms.length + 1 := by
  simp only [computerControl]
  split_ifs <;> simp

/-- The star collision pass never touches the player, the storm list or
the life and cooldown bookkeeping. -/
theorem handleStarCollisions_keeps (W : ℚ) (r : Rng) (g : GameState) :
    (handleStarCollisions W r g).player = g.player ∧
    (handleStarCollisions W r g).storms = g.storms ∧
    (handleStarCollisions W r g).lives = g.lives ∧
    (handleStarCollisions W r g).gameOver = g.gameOver ∧
    (handleStarCollisions W r g).canTakeStormDamage = g.canTakeStormDamage ∧
    (handleStarCollisions W r g).stormHitCooldown = g.stormHitCooldown :=
  ⟨rfl, rfl, rfl, rfl, rfl, rfl⟩

/-- The storm collision pass writes the storm-pass result into the
player and life fields and touches neither score nor the entity lists. -/
theorem handleStormCollisions_spec (g : GameState) :
    (handleStormCollisions g).player =
      (stormPass ⟨g.player, g.lives, g.gameOver, g.canTakeStormDamage, g.stormHitCooldown⟩ g.storms).player ∧
    (handleStormCollisions g).storms = g.storms ∧
    (handleStormCollisions g).score = g.score ∧
    (handleStormCollisions g).starsCollected = g.starsCollected ∧
    (handleStormCollisions g).stars = g.stars :=
  ⟨rfl, rfl, rfl, rfl, rfl⟩

/-- The first half of the tick moves only the player (through the
physics step) and the entity lists, leaving every session field alone. -/
theorem preCollisionState_spec (W : ℚ) (inp : Input) (r : Rng) (g : GameState) :
    (preCollisionState W inp r g).player
      = physicsStep inp.left inp.right (computerControl W r g).windForce g.player ∧
    (preCollisionState W inp r g).gameOver = g.gameOver ∧
    (preCollisionState W inp r g).score = g.score ∧
    (preCollisionState W inp r g).starsCollected = g.starsCollected ∧
    (preCollisionState W inp r g).lives = g.lives ∧
    (preCollisionState W inp r g).storms
      = scrollStorms W r.stormX 0 (computerControl W r g).storms ∧
    (preCollisionState W inp r g).canTakeStormDamage = g.canTakeStormDamage ∧
    (preCollisionState W inp r g).stormHitCooldown = g.stormHitCooldown ∧
    (preCollisionState W inp r g).windForce = (computerControl W r g).windForce ∧
    (preCollisionState W inp r g).windTimeout = (computerControl W r g).windTimeout := by
  obtain ⟨hp, hgo, hsc, hcol, hlv, _, _, _, hct, hchc, _⟩ := computerControl_keeps W r g
  refine ⟨?_, hgo, hsc, hcol, hlv, rfl, hct, hchc, rfl, rfl⟩
  show physicsStep inp.left inp.right (computerControl W r g).windForce
      (computerControl W r g).player = _
  rw [hp]

/-- The two collision passes in sequence move the player horizontally by
at most 2 per storm to the left, touch no other positional field, and
leave the storm list alone. -/
theorem collisions_player_spec (W : ℚ) (r : Rng) (g1 : GameState) :
    (handleStormCollisions (handleStarCollisions W r g1)).player.y = g1.player.y ∧
    (handleStormCollisions (handleStarCollisions W r g1)).player.size = g1.player.size ∧
    (handleStormCollisions (handleStarCollisions W r g1)).player.minX = g1.player.minX ∧
    (handleStormCollisions (handleStarCollisions W r g1)).player.maxX = g1.player.maxX ∧
    (handleStormCollisions (handleStarCollisions W r g1)).player.x ≤ g1.player.x ∧
    g1.player.x - 2 * ((g1.storms.length : ℚ))
      ≤ (handleStormCollisions (handleStarCollisions W r g1)).player.x ∧
    (handleStormCollisions (handleStarCollisions W r g1)).storms = g1.storms := by
  obtain ⟨h1, h2, h3, h4, h5, h6⟩ := stormPass_player_pos
    (handleStarCollisions W r g1).storms
    ⟨(handleStarCollisions W r g1).player, (handleStarCollisions W r g1).lives,
     (handleStarCollisions W r g1).gameOver, (handleStarCollisions W r g1).canTakeStormDamage,
     (handleStarCollisions W r g1).stormHitCooldown⟩
  exact ⟨h1, h2, h3, h4, h5, h6, rfl⟩

/-- The player of the updated state is the physics-step result, further
run through the collision passes when the game is live. -/
theorem update_player_eq (W : ℚ) (inp : Input) (r : Rng) (g : GameState) :
    (update W inp r g).player
      = if (preCollisionState W inp r g).gameOver
        then (preCollisionState W inp r g).player
        else (handleStormCollisions (handleStarCollisions W r
          (preCollisionState W inp r g))).player := by
  simp only [update]
  split_ifs <;> rfl

/-- The storm list of the updated state. -/
theorem update_storms_eq (W : ℚ) (inp : Input) (r : Rng) (g : GameState) :
    (update W inp r g).storms
      = if (preCollisionState W inp r g).gameOver
        then (preCollisionState W inp r g).storms
        else (handleStormCollisions (handleStarCollisions W r
          (preCollisionState W inp r g))).storms := by
  simp only [update]
  split_ifs <;> rfl

/-- While the game-over flag is set, one tick leaves score, collected
count, lives and the flag itself unchanged. -/
theorem update_gameOver_frozen (W : ℚ) (inp : Input) (r : Rng) (g : GameState)
    (hg : g.gameOver = true) :
    (update W inp r g).score = g.score ∧
    (update W inp r g).starsCollected = g.starsCollected ∧
    (update W inp r g).lives = g.lives ∧
    (update W inp r g).gameOver = true := by
  obtain ⟨hpp, hgo, hsc, hcol, hlv, _, _, _, _, _⟩ := preCollisionState_spec W inp r g
  have hgo2 : (preCollisionState W inp r g).gameOver = true := hgo.trans hg
  simp only [update, hgo2]
  simp [hsc, hcol, hlv, hgo2]

/-- The tick preserves size and the X bounds of the player, leaves the
player at or above the ground line, and — when the bounds are
consistent — leaves X at most at the upper bound and at most
2 · (number of storms) below the lower bound. -/
theorem update_player_spec (W : ℚ) (inp : Input) (r : Rng) (g : GameState) :
    (update W inp r g).player.size = g.player.size ∧
    (update W inp r g).player.minX = g.player.minX ∧
    (update W inp r g).player.maxX = g.player.maxX ∧
    (update W inp r g).player.y + g.player.size ≤ 280 ∧
    (g.player.minX ≤ g.player.maxX →
      (update W inp r g).player.x ≤ g.player.maxX ∧
      g.player.minX - 2 * (((update W inp r g).storms.length : ℚ)) ≤
        (update W inp r g).player.x) := by
  obtain ⟨hpp, hpgo, _, _, _, _, _, _, _, _⟩ := preCollisionState_spec W inp r g
  obtain ⟨hsz, hmn, hmx, hgr, hxmem⟩ := physicsStep_spec inp.left inp.right
    (computerControl W r g).windForce g.player
  obtain ⟨hcy, hcs, hcmn, hcmx, hcxle, hcxge, hcst⟩ :=
    collisions_player_spec W r (preCollisionState W inp r g)
  rw [hpp] at hcy hcs hcmn hcmx hcxle hcxge
  rw [update_player_eq, update_storms_eq]
  by_cases hgo2 : (preCollisionState W inp r g).gameOver
  · rw [if_pos hgo2, if_pos hgo2, hpp]
    refine ⟨hsz, hmn, hmx, hgr, fun hb => ⟨(hxmem hb).2, ?_⟩⟩
    have h0 : (0 : ℚ) ≤ (((preCollisionState W inp r g).storms.length : ℚ)) := by positivity
    have := (hxmem hb).1
    linarith
  · rw [if_neg hgo2, if_neg hgo2]
    refine ⟨hcs.trans hsz, hcmn.trans hmn, hcmx.trans hmx, ?_, fun hb => ⟨?_, ?_⟩⟩
    · rw [hcy]
      exact hgr
    · exact hcxle.trans (hxmem hb).2
    · rw [hcst]
      have := (hxmem hb).1
      linarith


end Enhanced2D

namespace Game3D

/-- The player block clamps X into the configured bounds and never
leaves the player below the ground line. -/
theorem playerStep_spec (inp : Input3) (w : ℚ) (p : Player3) :
    pMinX ≤ (playerStep inp w p).x ∧
    (playerStep inp w p).x ≤ pMaxX ∧
    startY ≤ (playerStep inp w p).y := by
  have hb : pMinX ≤ pMaxX := by norm_num [pMinX, pMaxX]
  simp only [playerStep]
  split_ifs <;>
    exact ⟨(clamp_mem _ _ _ hb).1, (clamp_mem _ _ _ hb).2, by simp only []; linarith⟩

/-- A skipped frame (delta beyond the sanity threshold) is a no-op. -/
theorem runnerTick_skip (delta now : ℚ) (inp : Input3) (r : Rng3) (g : State)
    (hd : delta > 0.05) : runnerTick delta now inp r g = g := by
  simp only [runnerTick, if_pos hd]

/-- Wind and player of a non-skipped frame. -/
theorem runnerTick_eq (delta now : ℚ) (inp : Input3) (r : Rng3) (g : State)
    (hd : delta ≤ 0.05) :
    (runnerTick delta now inp r g).wind = windExpire now (windSpawn now r g) ∧
    (runnerTick delta now inp r g).player
      = if g.gameOver then g.player
        else playerStep inp (windExpire now (windSpawn now r g)).force g.player := by
  simp only [runnerTick, if_neg (not_lt.mpr hd)]
  split_ifs <;> exact ⟨rfl, rfl⟩

end Game3D

end DreamDash

/-!  Claim theorems. -/

open DreamDash

/-- C2 counterexample: in the enhanced 2D variant the physics step keeps
running while the game-over flag is set — a tick with ArrowLeft held
moves the player from x = 100 to x = 97.5, so the player's position is
not left unchanged in GameOver. -/
theorem C2_counterexample :
    ¬ ((Enhanced2D.update 600 ⟨true, false⟩ Scenario.rngMiss Scenario.c2Over).player.x
        = Scenario.c2Over.player.x) := by
  norm_num [Scenario.c2Over, Scenario.base2D, Scenario.rngMiss, Enhanced2D.update,
    Enhanced2D.preCollisionState, Enhanced2D.computerControl, Enhanced2D.handleStarCollisions,
    Enhanced2D.handleStormCollisions,
    Enhanced2D.physicsStep, Enhanced2D.initPlayer, Enhanced2D.scrollStars, Enhanced2D.scrollClouds,
    Enhanced2D.scrollStorms, Enhanced2D.starPass, Enhanced2D.stormPass, Enhanced2D.stormStep,
    DreamDash.clampLoHi, DreamDash.rectCircleColliding, DreamDash.rectRectOverlap]

/-- C2 (amended): while GameOver, the collision engine does not run in
either variant — the enhanced 2D tick leaves score, collected count,
lives and the game-over flag unchanged, and the 3D Runner frame leaves
the whole player state and the score unchanged.  The enhanced 2D
physics step, however, still runs during GameOver and may change the
player's position and velocity. -/
theorem C2_gameover_frozen (W : ℚ) (inp : Enhanced2D.Input) (r : Enhanced2D.Rng)
    (g : Enhanced2D.GameState) (hg : g.gameOver = true)
    (delta now : ℚ) (inp3 : Game3D.Input3) (r3 : Game3D.Rng3)
    (g3 : Game3D.State) (hg3 : g3.gameOver = true) :
    (Enhanced2D.update W inp r g).score = g.score ∧
    (Enhanced2D.update W inp r g).starsCollected = g.starsCollected ∧
    (Enhanced2D.update W inp r g).lives = g.lives ∧
    (Enhanced2D.update W inp r g).gameOver = true ∧
    (Game3D.runnerTick delta now inp3 r3 g3).player = g3.player ∧
    (Game3D.runnerTick delta now inp3 r3 g3).score = g3.score ∧
    (Game3D.runnerTick delta now inp3 r3 g3).gameOver = true := by
  obtain ⟨h1, h2, h3, h4⟩ := Enhanced2D.update_gameOver_frozen W inp r g hg
  refine ⟨h1, h2, h3, h4, ?_, ?_, ?_⟩ <;>
  · simp only [Game3D.runnerTick]
    split_ifs with hd <;> simp [hg3]

/-- C2 witness. -/
theorem C2_gameover_frozen_witness :
    Scenario.c2Over.gameOver = true ∧
    (Enhanced2D.update 600 ⟨true, false⟩ Scenario.rngMiss Scenario.c2Over).score
      = Scenario.c2Over.score :=
  ⟨rfl, (C2_gameover_frozen 600 ⟨true, false⟩ Scenario.rngMiss Scenario.c2Over rfl
      0.01 0 Scenario.input3None Scenario.rng3Miss
      { Scenario.base3D with gameOver := true } rfl).1⟩

/-- C4 counterexample: `restartGame` does not clear the pending wind
and flash timers — after a restart from a state in which both are
pending, both are still pending, contradicting the claim that restart
clears every pending timer. -/
theorem C4_counterexample :
    (Enhanced2D.restartGame 600 (fun _ => 0) (fun _ => 0) Scenario.c4Pending).windTimeout = true ∧
    (Enhanced2D.restartGame 600 (fun _ => 0) (fun _ => 0) Scenario.c4Pending).flashTimeout = true :=
  ⟨rfl, rfl⟩

/-- C4 (amended): restart resets score to 0, level to 1, lives to 3,
the collected count and threshold, clears the game-over flag (state
machine back to Playing), zeroes the wind force and flash alpha, resets
the player, and clears the invulnerability cooldown timer; the 3D
restart also resets the wind force and expiry timestamp.  The enhanced
2D restart leaves any pending wind-expiry and flash timers pending;
such a stale wind timer firing after restart only re-zeroes the already
zero force and drops its handle. -/
theorem C4_restart (W : ℚ) (cloudY starY : ℕ → ℚ) (g : Enhanced2D.GameState)
    (r3 : Game3D.Rng3) (g3 : Game3D.State) :
    (Enhanced2D.restartGame W cloudY starY g).score = 0 ∧
    (Enhanced2D.restartGame W cloudY starY g).level = 1 ∧
    (Enhanced2D.restartGame W cloudY starY g).lives = 3 ∧
    (Enhanced2D.restartGame W cloudY starY g).starsCollected = 0 ∧
    (Enhanced2D.restartGame W cloudY starY g).nextLevelAt = 5 ∧
    (Enhanced2D.restartGame W cloudY starY g).gameOver = false ∧
    (Enhanced2D.restartGame W cloudY starY g).windForce = 0 ∧
    (Enhanced2D.restartGame W cloudY starY g).flashAlpha = 0 ∧
    (Enhanced2D.restartGame W cloudY starY g).canTakeStormDamage = true ∧
    (Enhanced2D.restartGame W cloudY starY g).stormHitCooldown = false ∧
    (Enhanced2D.restartGame W cloudY starY g).player = Enhanced2D.initPlayer W ∧
    (Enhanced2D.restartGame W cloudY starY g).windTimeout = g.windTimeout ∧
    (Enhanced2D.restartGame W cloudY starY g).flashTimeout = g.flashTimeout ∧
    Enhanced2D.windTimeoutFire (Enhanced2D.restartGame W cloudY starY g)
      = { Enhanced2D.restartGame W cloudY starY g with windTimeout := false } ∧
    (Game3D.restart r3 g3).score = 0 ∧
    (Game3D.restart r3 g3).level = 1 ∧
    (Game3D.restart r3 g3).target = 8 ∧
    (Game3D.restart r3 g3).gameOver = false ∧
    (Game3D.restart r3 g3).speed = Game3D.baseForwardSpeed ∧
    (Game3D.restart r3 g3).wind = ⟨0, 0⟩ ∧
    (Game3D.restart r3 g3).player = Game3D.initPlayer3 :=
  ⟨rfl, rfl, rfl, rfl, rfl, rfl, rfl, rfl, rfl, rfl, rfl, rfl, rfl, rfl,
   rfl, rfl, rfl, rfl, rfl, rfl, rfl⟩

/-- C10: the restart command is accepted from any state, not only from
GameOver: the R-key handler of both variants invokes the restart
operation unconditionally, and doing so while still Playing discards
the current session and yields the initial session state with freshly
initialized entities. -/
theorem C10_restart_any_state (W : ℚ) (cloudY starY : ℕ → ℚ)
    (g : Enhanced2D.GameState) (hg : g.gameOver = false)
    (r3 : Game3D.Rng3) (g3 : Game3D.State) (hg3 : g3.gameOver = false) :
    Enhanced2D.onKeyDownR W cloudY starY g = Enhanced2D.restartGame W cloudY starY g ∧
    (Enhanced2D.onKeyDownR W cloudY starY g).score = 0 ∧
    (Enhanced2D.onKeyDownR W cloudY starY g).level = 1 ∧
    (Enhanced2D.onKeyDownR W cloudY starY g).lives = 3 ∧
    (Enhanced2D.onKeyDownR W cloudY starY g).starsCollected = 0 ∧
    (Enhanced2D.onKeyDownR W cloudY starY g).nextLevelAt = 5 ∧
    (Enhanced2D.onKeyDownR W cloudY starY g).gameOver = false ∧
    (Enhanced2D.onKeyDownR W cloudY starY g).player = Enhanced2D.initPlayer W ∧
    (Enhanced2D.onKeyDownR W cloudY starY g).stars = Enhanced2D.initStars starY ∧
    (Enhanced2D.onKeyDownR W cloudY starY g).storms = [] ∧
    Game3D.onKeyR r3 g3 = Game3D.restart r3 g3 ∧
    (Game3D.onKeyR r3 g3).score = 0 ∧
    (Game3D.onKeyR r3 g3).level = 1 ∧
    (Game3D.onKeyR r3 g3).target = 8 ∧
    (Game3D.onKeyR r3 g3).gameOver = false ∧
    (Game3D.onKeyR r3 g3).player = Game3D.initPlayer3 ∧
    (Game3D.onKeyR r3 g3).stars = (Game3D.resetEntities r3).1 ∧
    (Game3D.onKeyR r3 g3).storms = (Game3D.resetEntities r3).2 :=
  ⟨rfl, rfl, rfl, rfl, rfl, rfl, rfl, rfl, rfl, rfl,
   rfl, rfl, rfl, rfl, rfl, rfl, rfl, rfl⟩

/-- C10 witness. -/
theorem C10_restart_any_state_witness :
    Scenario.base2D.gameOver = false ∧
    (Enhanced2D.onKeyDownR 600 (fun _ => 0) (fun _ => 0) Scenario.base2D).score = 0 ∧
    (Game3D.onKeyR Scenario.rng3Miss Scenario.base3D).level = 1 :=
  ⟨rfl,
   (C10_restart_any_state 600 (fun _ => 0) (fun _ => 0) Scenario.base2D rfl
      Scenario.rng3Miss Scenario.base3D rfl).2.1,
   (C10_restart_any_state 600 (fun _ => 0) (fun _ => 0) Scenario.base2D rfl
      Scenario.rng3Miss Scenario.base3D rfl).2.2.2.2.2.2.2.2.2.2.2.2.1⟩

/-- C1 counterexample: with the player resting at the left bound and an
overlapping storm, the pushback of the hazard hit (applied after the
clamps, with no re-clamp) leaves player.x = -2, strictly below
minX = 0, at the end of the tick. -/
theorem C1_counterexample :
    ¬ (Scenario.c1Storm.player.minX
        ≤ (Enhanced2D.update 600 Scenario.inputNone Scenario.rngMiss Scenario.c1Storm).player.x) := by
  norm_num [Scenario.c1Storm, Scenario.base2D, Scenario.rngMiss, Scenario.inputNone,
    Enhanced2D.update, Enhanced2D.preCollisionState, Enhanced2D.computerControl,
    Enhanced2D.handleStarCollisions, Enhanced2D.handleStormCollisions,
    Enhanced2D.physicsStep, Enhanced2D.initPlayer, Enhanced2D.scrollStars,
    Enhanced2D.scrollClouds, Enhanced2D.scrollStorms, Enhanced2D.starPass,
    Enhanced2D.stormPass, Enhanced2D.stormStep, DreamDash.clampLoHi,
    DreamDash.rectCircleColliding, DreamDash.rectRectOverlap]

/-- C1 (amended): the physics clamps do keep player.x within
[minX, maxX] (given minX ≤ maxX) in every tick of the enhanced 2D
update without a hazard overlap, and unconditionally in the 3D Runner
frame while playing; but in the enhanced 2D variant each hazard overlap
of the same tick shifts x two units left after the clamps, so after a
tick x is only guaranteed to lie in
[minX - 2·(number of storms), maxX]. -/
theorem C1_x_bounds (W : ℚ) (inp : Enhanced2D.Input) (r : Enhanced2D.Rng)
    (g : Enhanced2D.GameState) (hb : g.player.minX ≤ g.player.maxX)
    (delta now : ℚ) (inp3 : Game3D.Input3) (r3 : Game3D.Rng3) (g3 : Game3D.State)
    (hd : delta ≤ 0.05) (hg3 : g3.gameOver = false) :
    (Enhanced2D.update W inp r g).player.x ≤ g.player.maxX ∧
    g.player.minX - 2 * (((Enhanced2D.update W inp r g).storms.length : ℚ))
      ≤ (Enhanced2D.update W inp r g).player.x ∧
    Game3D.pMinX ≤ (Game3D.runnerTick delta now inp3 r3 g3).player.x ∧
    (Game3D.runnerTick delta now inp3 r3 g3).player.x ≤ Game3D.pMaxX := by
  obtain ⟨hxle, hxge⟩ := (Enhanced2D.update_player_spec W inp r g).2.2.2.2 hb
  obtain ⟨-, hpl⟩ := Game3D.runnerTick_eq delta now inp3 r3 g3 hd
  rw [hg3] at hpl
  simp only [if_false, Bool.false_eq_true] at hpl
  rw [hpl]
  obtain ⟨h1, h2, -⟩ := Game3D.playerStep_spec inp3
    (Game3D.windExpire now (Game3D.windSpawn now r3 g3)).force g3.player
  exact ⟨hxle, hxge, h1, h2⟩

/-- C1 witness. -/
theorem C1_x_bounds_witness :
    Scenario.base2D.player.minX ≤ Scenario.base2D.player.maxX ∧
    (Enhanced2D.update 600 Scenario.inputNone Scenario.rngMiss Scenario.base2D).player.x
      ≤ Scenario.base2D.player.maxX := by
  have hb : Scenario.base2D.player.minX ≤ Scenario.base2D.player.maxX := by
    norm_num [Scenario.base2D, Enhanced2D.initPlayer]
  exact ⟨hb, (C1_x_bounds 600 Scenario.inputNone Scenario.rngMiss Scenario.base2D hb
    0.01 0 Scenario.input3None Scenario.rng3Miss Scenario.base3D (by norm_num) rfl).1⟩

/-- C8: the player never sinks below the ground line — after any tick
of the enhanced 2D update and of the basic 2D update, player.y plus the
player's size does not exceed the ground line 280; in the 3D Runner a
non-skipped frame while playing leaves player.y at or above the ground
line startY, and every frame preserves being at or above it. -/
theorem C8_ground (W : ℚ) (inp : Enhanced2D.Input) (r : Enhanced2D.Rng)
    (g : Enhanced2D.GameState) (wb : ℚ) (pb : Basic2D.Player)
    (delta now : ℚ) (inp3 : Game3D.Input3) (r3 : Game3D.Rng3) (g3 : Game3D.State) :
    (Enhanced2D.update W inp r g).player.y + (Enhanced2D.update W inp r g).player.size ≤ 280 ∧
    (Basic2D.update wb pb).y + (Basic2D.update wb pb).size ≤ 280 ∧
    (delta ≤ 0.05 → g3.gameOver = false →
      Game3D.startY ≤ (Game3D.runnerTick delta now inp3 r3 g3).player.y) ∧
    (Game3D.startY ≤ g3.player.y →
      Game3D.startY ≤ (Game3D.runnerTick delta now inp3 r3 g3).player.y) := by
  obtain ⟨hsz, -, -, hgr, -⟩ := Enhanced2D.update_player_spec W inp r g
  refine ⟨?_, ?_, ?_, ?_⟩
  · rw [hsz]
    exact hgr
  · simp only [Basic2D.update]
    split_ifs <;> simp only [] <;> linarith
  · intro hd hg3
    obtain ⟨-, hpl⟩ := Game3D.runnerTick_eq delta now inp3 r3 g3 hd
    rw [hg3] at hpl
    simp only [if_false, Bool.false_eq_true] at hpl
    rw [hpl]
    exact (Game3D.playerStep_spec inp3 _ g3.player).2.2
  · intro hy
    by_cases hd : delta > 0.05
    · rw [Game3D.runnerTick_skip delta now inp3 r3 g3 hd]
      exact hy
    · obtain ⟨-, hpl⟩ := Game3D.runnerTick_eq delta now inp3 r3 g3 (not_lt.mp hd)
      rw [hpl]
      by_cases hgo : g3.gameOver
      · rw [if_pos hgo]
        exact hy
      · rw [if_neg hgo]
        exact (Game3D.playerStep_spec inp3 _ g3.player).2.2

/-- C8 witness. -/
theorem C8_ground_witness :
    (Enhanced2D.update 600 Scenario.inputNone Scenario.rngMiss Scenario.base2D).player.y
        + (Enhanced2D.update 600 Scenario.inputNone Scenario.rngMiss Scenario.base2D).player.size
      ≤ 280 ∧
    Game3D.startY ≤ (Game3D.runnerTick 0.01 0 Scenario.input3None Scenario.rng3Miss
      Scenario.base3D).player.y := by
  have h := C8_ground 600 Scenario.inputNone Scenario.rngMiss Scenario.base2D
    0 ⟨100, 220, 28, 0, 0.8, -12, true⟩ 0.01 0 Scenario.input3None Scenario.rng3Miss
    Scenario.base3D
  exact ⟨h.1, h.2.2.1 (by norm_num) rfl⟩

/-- C9: idempotence of rest for the physics portion of the tick (the
cited lines of both variants): with no directional input held, no wind
force, and the player grounded at the rest position with zero vertical
velocity, the physics step leaves player.y and player.vy unchanged —
gravity is applied and then exactly undone by the ground clamp.  In
addition, one full tick of either variant on the reference rest state
leaves player.y and player.vy unchanged. -/
theorem C9_rest_idempotent (p : Enhanced2D.Player) (q : Game3D.Player3)
    (hy : p.y = 280 - p.size) (hvy : p.vy = 0) (hgrav : 0 < p.gravity)
    (hceil : p.ceilingY ≤ 280 - p.size)
    (hy3 : q.y = Game3D.startY) (hvy3 : q.vy = 0) :
    (Enhanced2D.physicsStep false false 0 p).y = p.y ∧
    (Enhanced2D.physicsStep false false 0 p).vy = p.vy ∧
    (Game3D.playerStep ⟨false, false, false, false⟩ 0 q).y = q.y ∧
    (Game3D.playerStep ⟨false, false, false, false⟩ 0 q).vy = q.vy ∧
    (Enhanced2D.update 600 ⟨false, false⟩ Scenario.rngMiss Scenario.base2D).player.y
      = Scenario.base2D.player.y ∧
    (Enhanced2D.update 600 ⟨false, false⟩ Scenario.rngMiss Scenario.base2D).player.vy
      = Scenario.base2D.player.vy ∧
    (Game3D.runnerTick 0.01 0 Scenario.input3None Scenario.rng3Miss Scenario.base3D).player.y
      = Scenario.base3D.player.y ∧
    (Game3D.runnerTick 0.01 0 Scenario.input3None Scenario.rng3Miss Scenario.base3D).player.vy
      = Scenario.base3D.player.vy := by
  have hys : q.y = 0.6 := by
    rw [hy3]
    norm_num [Game3D.startY]
  refine ⟨?_, ?_, ?_, ?_, ?_, ?_, ?_, ?_⟩
  · simp [Enhanced2D.physicsStep]
    split_ifs <;> simp only [] <;> linarith
  · simp [Enhanced2D.physicsStep]
    split_ifs <;> simp only [] <;> linarith
  · simp [Game3D.playerStep, Game3D.gravity, Game3D.startY]
    split_ifs <;> simp only [] <;> linarith
  · simp [Game3D.playerStep, Game3D.gravity, Game3D.startY]
    split_ifs <;> simp only [] <;> linarith
  · norm_num [Scenario.base2D, Scenario.rngMiss, Enhanced2D.update,
      Enhanced2D.preCollisionState, Enhanced2D.computerControl,
      Enhanced2D.handleStarCollisions, Enhanced2D.handleStormCollisions,
      Enhanced2D.physicsStep, Enhanced2D.initPlayer, Enhanced2D.scrollStars,
      Enhanced2D.scrollClouds, Enhanced2D.scrollStorms, Enhanced2D.starPass,
      Enhanced2D.stormPass, Enhanced2D.stormStep, DreamDash.clampLoHi,
      DreamDash.rectCircleColliding, DreamDash.rectRectOverlap]
  · norm_num [Scenario.base2D, Scenario.rngMiss, Enhanced2D.update,
      Enhanced2D.preCollisionState, Enhanced2D.computerControl,
      Enhanced2D.handleStarCollisions, Enhanced2D.handleStormCollisions,
      Enhanced2D.physicsStep, Enhanced2D.initPlayer, Enhanced2D.scrollStars,
      Enhanced2D.scrollClouds, Enhanced2D.scrollStorms, Enhanced2D.starPass,
      Enhanced2D.stormPass, Enhanced2D.stormStep, DreamDash.clampLoHi,
      DreamDash.rectCircleColliding, DreamDash.rectRectOverlap]
  · norm_num [Scenario.base3D, Scenario.rng3Miss, Scenario.input3None,
      Game3D.runnerTick, Game3D.windSpawn, Game3D.windExpire, Game3D.playerStep,
      Game3D.scrollStars3, Game3D.scrollStorms3, Game3D.collectPass, Game3D.stormHit,
      Game3D.initPlayer3, Game3D.baseForwardSpeed, Game3D.gravity, Game3D.moveSpeed,
      Game3D.jumpVelocity, Game3D.startY, Game3D.pMinX, Game3D.pMaxX, Game3D.windChance,
      Game3D.windMaxForce, Game3D.windDurationMs, DreamDash.clamp]
  · norm_num [Scenario.base3D, Scenario.rng3Miss, Scenario.input3None,
      Game3D.runnerTick, Game3D.windSpawn, Game3D.windExpire, Game3D.playerStep,
      Game3D.scrollStars3, Game3D.scrollStorms3, Game3D.collectPass, Game3D.stormHit,
      Game3D.initPlayer3, Game3D.baseForwardSpeed, Game3D.gravity, Game3D.moveSpeed,
      Game3D.jumpVelocity, Game3D.startY, Game3D.pMinX, Game3D.pMaxX, Game3D.windChance,
      Game3D.windMaxForce, Game3D.windDurationMs, DreamDash.clamp]

/-- C9 witness. -/
theorem C9_rest_idempotent_witness :
    (Enhanced2D.physicsStep false false 0 (Enhanced2D.initPlayer 600)).y
      = (Enhanced2D.initPlayer 600).y ∧
    (Game3D.playerStep ⟨false, false, false, false⟩ 0 Game3D.initPlayer3).vy
      = Game3D.initPlayer3.vy := by
  have h := C9_rest_idempotent (Enhanced2D.initPlayer 600) Game3D.initPlayer3
    (by norm_num [Enhanced2D.initPlayer]) rfl
    (by norm_num [Enhanced2D.initPlayer]) (by norm_num [Enhanced2D.initPlayer]) rfl rfl
  exact ⟨h.1, h.2.2.2.1⟩

/-- C3 counterexample: in the 3D variant, a star collected on a tick is
only marked inactive — after the tick it sits at its scrolled position
(z advanced by the forward speed, x and y unchanged), not respawned
off-screen ahead, and it still geometrically overlaps the player. -/
theorem C3_counterexample :
    (Game3D.runnerTick 0.01 0 Scenario.input3None Scenario.rng3Miss Scenario.c3Star3D).score = 1 ∧
    (Game3D.runnerTick 0.01 0 Scenario.input3None Scenario.rng3Miss Scenario.c3Star3D).stars
      = [⟨0, 0.6, 2.123, false⟩] ∧
    Game3D.sphereAabbIntersect
      ⟨(Game3D.runnerTick 0.01 0 Scenario.input3None Scenario.rng3Miss Scenario.c3Star3D).player.x,
       (Game3D.runnerTick 0.01 0 Scenario.input3None Scenario.rng3Miss Scenario.c3Star3D).player.y,
       (Game3D.runnerTick 0.01 0 Scenario.input3None Scenario.rng3Miss Scenario.c3Star3D).player.z⟩
      Game3D.starRadius ⟨0, 0.6, 2.123⟩ ⟨0.25, 0.25, 0.25⟩ = true := by
  norm_num [Scenario.c3Star3D, Scenario.base3D, Scenario.rng3Miss, Scenario.input3None,
    Game3D.runnerTick, Game3D.windSpawn, Game3D.windExpire, Game3D.playerStep,
    Game3D.scrollStars3, Game3D.scrollStorms3, Game3D.collectPass, Game3D.stormHit,
    Game3D.sphereAabbIntersect, Game3D.initPlayer3, Game3D.starRadius, Game3D.stormHalf,
    Game3D.baseForwardSpeed, Game3D.gravity, Game3D.moveSpeed, Game3D.jumpVelocity,
    Game3D.startY, Game3D.pMinX, Game3D.pMaxX, Game3D.windChance, Game3D.windMaxForce,
    Game3D.windDurationMs, Game3D.worldWidth, DreamDash.clamp, abs]

/-- C3 (amended): a collectible placed exactly at the player's position
scores exactly +1 on the next tick in both variants; in the enhanced 2D
variant it is also immediately respawned off-screen ahead (x at least
W + 40) and no longer overlaps the player, while in the 3D variant it
is only marked inactive at its scrolled position and is respawned
off-screen ahead only by a later scroll pass once it passes the
camera. -/
theorem C3_collect (cx cy : ℚ) (hcx : 0 ≤ cx) :
    (Enhanced2D.update 600 ⟨false, false⟩ (Scenario.rngCollect cx cy) Scenario.c3Star2D).score
      = Scenario.c3Star2D.score + 1 ∧
    (Enhanced2D.update 600 ⟨false, false⟩ (Scenario.rngCollect cx cy) Scenario.c3Star2D).stars
      = [⟨640 + cx * 200, 80 + cy * 200, 5, 1.5⟩] ∧
    DreamDash.rectCircleColliding
      (Enhanced2D.update 600 ⟨false, false⟩ (Scenario.rngCollect cx cy) Scenario.c3Star2D).player.x
      (Enhanced2D.update 600 ⟨false, false⟩ (Scenario.rngCollect cx cy) Scenario.c3Star2D).player.y
      (Enhanced2D.update 600 ⟨false, false⟩ (Scenario.rngCollect cx cy) Scenario.c3Star2D).player.size
      (Enhanced2D.update 600 ⟨false, false⟩ (Scenario.rngCollect cx cy) Scenario.c3Star2D).player.size
      (640 + cx * 200) (80 + cy * 200) 5 = false ∧
    (Game3D.runnerTick 0.01 0 Scenario.input3None Scenario.rng3Miss Scenario.c3Star3D).score
      = Scenario.c3Star3D.score + 1 ∧
    (Game3D.runnerTick 0.01 0 Scenario.input3None Scenario.rng3Miss Scenario.c3Star3D).stars
      = [⟨0, 0.6, 2.123, false⟩] := by
  have hx : (Enhanced2D.update 600 ⟨false, false⟩ (Scenario.rngCollect cx cy)
      Scenario.c3Star2D).player.x = 100 := by
    norm_num [Scenario.rngCollect, Scenario.c3Star2D, Scenario.base2D, Scenario.rngMiss,
      Enhanced2D.update, Enhanced2D.preCollisionState, Enhanced2D.computerControl,
      Enhanced2D.handleStarCollisions, Enhanced2D.handleStormCollisions,
      Enhanced2D.physicsStep, Enhanced2D.initPlayer, Enhanced2D.scrollStars,
      Enhanced2D.scrollClouds, Enhanced2D.scrollStorms, Enhanced2D.starPass,
      Enhanced2D.stormPass, Enhanced2D.stormStep, DreamDash.clampLoHi,
      DreamDash.rectCircleColliding, DreamDash.rectRectOverlap]
  have hy : (Enhanced2D.update 600 ⟨false, false⟩ (Scenario.rngCollect cx cy)
      Scenario.c3Star2D).player.y = 250 := by
    norm_num [Scenario.rngCollect, Scenario.c3Star2D, Scenario.base2D, Scenario.rngMiss,
      Enhanced2D.update, Enhanced2D.preCollisionState, Enhanced2D.computerControl,
      Enhanced2D.handleStarCollisions, Enhanced2D.handleStormCollisions,
      Enhanced2D.physicsStep, Enhanced2D.initPlayer, Enhanced2D.scrollStars,
      Enhanced2D.scrollClouds, Enhanced2D.scrollStorms, Enhanced2D.starPass,
      Enhanced2D.stormPass, Enhanced2D.stormStep, DreamDash.clampLoHi,
      DreamDash.rectCircleColliding, DreamDash.rectRectOverlap]
  have hsz : (Enhanced2D.update 600 ⟨false, false⟩ (Scenario.rngCollect cx cy)
      Scenario.c3Star2D).player.size = 30 := by
    norm_num [Scenario.rngCollect, Scenario.c3Star2D, Scenario.base2D, Scenario.rngMiss,
      Enhanced2D.update, Enhanced2D.preCollisionState, Enhanced2D.computerControl,
      Enhanced2D.handleStarCollisions, Enhanced2D.handleStormCollisions,
      Enhanced2D.physicsStep, Enhanced2D.initPlayer, Enhanced2D.scrollStars,
      Enhanced2D.scrollClouds, Enhanced2D.scrollStorms, Enhanced2D.starPass,
      Enhanced2D.stormPass, Enhanced2D.stormStep, DreamDash.clampLoHi,
      DreamDash.rectCircleColliding, DreamDash.rectRectOverlap]
  have hno : DreamDash.rectCircleColliding 100 250 30 30 (640 + cx * 200) (80 + cy * 200) 5
      = false := by
    simp only [DreamDash.rectCircleColliding]
    rw [decide_eq_false_iff_not]
    intro h
    rw [min_eq_right (by linarith : (100 : ℚ) + 30 ≤ 640 + cx * 200),
        max_eq_right (by norm_num : (100 : ℚ) ≤ 100 + 30)] at h
    set Y := max (250 : ℚ) (min ((80 : ℚ) + cy * 200) (250 + 30)) with hY
    nlinarith [sq_nonneg (80 + cy * 200 - Y), sq_nonneg (640 + cx * 200 - (100 + 30)),
      mul_nonneg hcx hcx]
  refine ⟨?_, ?_, ?_, ?_, ?_⟩
  · norm_num [Scenario.rngCollect, Scenario.c3Star2D, Scenario.base2D, Scenario.rngMiss,
      Enhanced2D.update, Enhanced2D.preCollisionState, Enhanced2D.computerControl,
      Enhanced2D.handleStarCollisions, Enhanced2D.handleStormCollisions,
      Enhanced2D.physicsStep, Enhanced2D.initPlayer, Enhanced2D.scrollStars,
      Enhanced2D.scrollClouds, Enhanced2D.scrollStorms, Enhanced2D.starPass,
      Enhanced2D.stormPass, Enhanced2D.stormStep, DreamDash.clampLoHi,
      DreamDash.rectCircleColliding, DreamDash.rectRectOverlap]
  · norm_num [Scenario.rngCollect, Scenario.c3Star2D, Scenario.base2D, Scenario.rngMiss,
      Enhanced2D.update, Enhanced2D.preCollisionState, Enhanced2D.computerControl,
      Enhanced2D.handleStarCollisions, Enhanced2D.handleStormCollisions,
      Enhanced2D.physicsStep, Enhanced2D.initPlayer, Enhanced2D.scrollStars,
      Enhanced2D.scrollClouds, Enhanced2D.scrollStorms, Enhanced2D.starPass,
      Enhanced2D.stormPass, Enhanced2D.stormStep, DreamDash.clampLoHi,
      DreamDash.rectCircleColliding, DreamDash.rectRectOverlap]
  · rw [hx, hy, hsz]
    exact hno
  · norm_num [Scenario.c3Star3D, Scenario.base3D, Scenario.rng3Miss, Scenario.input3None,
      Game3D.runnerTick, Game3D.windSpawn, Game3D.windExpire, Game3D.playerStep,
      Game3D.scrollStars3, Game3D.scrollStorms3, Game3D.collectPass, Game3D.stormHit,
      Game3D.sphereAabbIntersect, Game3D.initPlayer3, Game3D.starRadius, Game3D.stormHalf,
      Game3D.baseForwardSpeed, Game3D.gravity, Game3D.moveSpeed, Game3D.jumpVelocity,
      Game3D.startY, Game3D.pMinX, Game3D.pMaxX, Game3D.windChance, Game3D.windMaxForce,
      Game3D.windDurationMs, Game3D.worldWidth, DreamDash.clamp, abs]
  · norm_num [Scenario.c3Star3D, Scenario.base3D, Scenario.rng3Miss, Scenario.input3None,
      Game3D.runnerTick, Game3D.windSpawn, Game3D.windExpire, Game3D.playerStep,
      Game3D.scrollStars3, Game3D.scrollStorms3, Game3D.collectPass, Game3D.stormHit,
      Game3D.sphereAabbIntersect, Game3D.initPlayer3, Game3D.starRadius, Game3D.stormHalf,
      Game3D.baseForwardSpeed, Game3D.gravity, Game3D.moveSpeed, Game3D.jumpVelocity,
      Game3D.startY, Game3D.pMinX, Game3D.pMaxX, Game3D.windChance, Game3D.windMaxForce,
      Game3D.windDurationMs, Game3D.worldWidth, DreamDash.clamp, abs]

/-- C3 witness. -/
theorem C3_collect_witness :
    (0 : ℚ) ≤ 0 ∧
    (Enhanced2D.update 600 ⟨false, false⟩ (Scenario.rngCollect 0 0) Scenario.c3Star2D).score
      = Scenario.c3Star2D.score + 1 :=
  ⟨le_refl 0, (C3_collect 0 0 (le_refl 0)).1⟩

/-- C5: from 3 lives, three hazard overlaps — each separated by the
invulnerability cooldown expiring — reduce lives 3 → 2 → 1 → 0 and set
game over exactly on the third; an overlap inside the invulnerability
window (no expiry since the previous hit) costs no further life. -/
theorem C5_lives_sequence :
    Scenario.c5Hit1.lives = 2 ∧
    Scenario.c5Hit1.gameOver = false ∧
    Scenario.c5HitInWindow.lives = 2 ∧
    Scenario.c5HitInWindow.gameOver = false ∧
    Scenario.c5Hit2.lives = 1 ∧
    Scenario.c5Hit2.gameOver = false ∧
    Scenario.c5Hit3.lives = 0 ∧
    Scenario.c5Hit3.gameOver = true := by
  norm_num [Scenario.c5Hit1, Scenario.c5HitInWindow, Scenario.c5Hit2, Scenario.c5Hit3,
    Scenario.c5Start, Scenario.c5Storms, Enhanced2D.stormPass, Enhanced2D.stormStep,
    Enhanced2D.stormCooldownFire, Enhanced2D.initPlayer, DreamDash.rectRectOverlap]

/-- C6 counterexample: on the tick whose time equals the recorded wind
expiry (now = until), the zeroing check `now > until` fails — the stale
force 0.05 is still read by the physics step (the player moves by it)
and remains stored after the tick, contradicting "zero from the tick at
or after expiry". -/
theorem C6_counterexample :
    (Game3D.runnerTick 0.01 1000 Scenario.input3None Scenario.rng3Miss Scenario.c6Wind).wind.force
      = 0.05 ∧
    (Game3D.runnerTick 0.01 1000 Scenario.input3None Scenario.rng3Miss Scenario.c6Wind).player.x
      = 0.05 := by
  norm_num [Scenario.c6Wind, Scenario.base3D, Scenario.rng3Miss, Scenario.input3None,
    Game3D.runnerTick, Game3D.windSpawn, Game3D.windExpire, Game3D.playerStep,
    Game3D.scrollStars3, Game3D.scrollStorms3, Game3D.collectPass, Game3D.stormHit,
    Game3D.initPlayer3, Game3D.baseForwardSpeed, Game3D.gravity, Game3D.moveSpeed,
    Game3D.jumpVelocity, Game3D.startY, Game3D.pMinX, Game3D.pMaxX, Game3D.windChance,
    Game3D.windMaxForce, Game3D.windDurationMs, DreamDash.clamp]

/-- C6 (amended): on every non-skipped frame whose time is strictly
past the recorded expiry and on which no new gust spawns, the stored
wind force is zeroed and the physics step reads a force of exactly
zero; at now = until the stale force still applies for one more
frame. -/
theorem C6_wind_decay (delta now : ℚ) (inp : Game3D.Input3) (r : Game3D.Rng3)
    (g : Game3D.State) (hd : delta ≤ 0.05) (hexp : now > g.wind.untilMs)
    (hroll : ¬ r.windRoll < Game3D.windChance) :
    (Game3D.runnerTick delta now inp r g).wind.force = 0 ∧
    (g.gameOver = false →
      (Game3D.runnerTick delta now inp r g).player = Game3D.playerStep inp 0 g.player) := by
  have hsp : Game3D.windSpawn now r g = g.wind := by
    simp [Game3D.windSpawn, hroll]
  have hex : Game3D.windExpire now g.wind = { g.wind with force := 0 } := by
    simp [Game3D.windExpire, hexp]
  obtain ⟨hw, hp⟩ := Game3D.runnerTick_eq delta now inp r g hd
  constructor
  · rw [hw, hsp, hex]
  · intro hgo
    rw [hp, hgo, hsp, hex]
    simp

/-- C6 witness. -/
theorem C6_wind_decay_witness :
    (Game3D.runnerTick 0.01 1001 Scenario.input3None Scenario.rng3Miss Scenario.c6Wind).wind.force
      = 0 :=
  (C6_wind_decay 0.01 1001 Scenario.input3None Scenario.rng3Miss Scenario.c6Wind
    (by norm_num) (by norm_num [Scenario.c6Wind, Scenario.base3D])
    (by norm_num [Scenario.rng3Miss, Game3D.windChance])).1

/-- C7 counterexample: in the 3D Runner, a winning wind roll while a
gust is still active (now = 1000 < until = 5000) starts no new gust —
the wind state is left completely unchanged, its expiry timer is not
reset to now + duration — so the wind-spawn branch does not supersede
an active gust. -/
theorem C7_counterexample :
    (Game3D.runnerTick 0.01 1000 Scenario.input3None Scenario.rng3WindHit Scenario.c7Wind).wind
      = Scenario.c7Wind.wind ∧
    ¬ ((Game3D.runnerTick 0.01 1000 Scenario.input3None Scenario.rng3WindHit
        Scenario.c7Wind).wind.untilMs = 1000 + Game3D.windDurationMs) := by
  norm_num [Scenario.c7Wind, Scenario.base3D, Scenario.rng3WindHit, Scenario.rng3Miss,
    Scenario.input3None, Game3D.runnerTick, Game3D.windSpawn, Game3D.windExpire,
    Game3D.playerStep, Game3D.scrollStars3, Game3D.scrollStorms3, Game3D.collectPass,
    Game3D.stormHit, Game3D.initPlayer3, Game3D.baseForwardSpeed, Game3D.gravity,
    Game3D.moveSpeed, Game3D.jumpVelocity, Game3D.startY, Game3D.pMinX, Game3D.pMaxX,
    Game3D.windChance, Game3D.windMaxForce, Game3D.windDurationMs, DreamDash.clamp]

/-- C7 (amended): the enhanced 2D `computerControl` starts a gust on a
winning roll unconditionally — even while a gust is active — replacing
the force and re-arming the wind timer; the 3D Runner's wind-spawn
branch instead fires only once the current gust has expired
(now > until): while a gust is active the wind state is left unchanged,
and when it has expired a winning roll while playing installs the new
gust with a full duration from the current time. -/
theorem C7_wind_supersede (W : ℚ) (r : Enhanced2D.Rng) (g : Enhanced2D.GameState)
    (delta now : ℚ) (inp3 : Game3D.Input3) (r3 : Game3D.Rng3) (g3 : Game3D.State)
    (hd : delta ≤ 0.05) :
    (r.windRoll < 0.002 →
      (Enhanced2D.computerControl W r g).windForce
        = (r.windForceRoll - 0.5) * (2 + (g.level : ℚ) * 0.2) ∧
      (Enhanced2D.computerControl W r g).windTimeout = true) ∧
    (now ≤ g3.wind.untilMs →
      (Game3D.runnerTick delta now inp3 r3 g3).wind = g3.wind) ∧
    (now > g3.wind.untilMs → r3.windRoll < Game3D.windChance → g3.gameOver = false →
      (Game3D.runnerTick delta now inp3 r3 g3).wind
        = ⟨(r3.windForceRoll * 2 - 1) * Game3D.windMaxForce, now + Game3D.windDurationMs⟩) := by
  obtain ⟨hw, -⟩ := Game3D.runnerTick_eq delta now inp3 r3 g3 hd
  refine ⟨?_, ?_, ?_⟩
  · intro hroll
    simp only [Enhanced2D.computerControl]
    rw [if_pos hroll]
    exact ⟨rfl, rfl⟩
  · intro hact
    have hnl : ¬ (now > g3.wind.untilMs) := not_lt.mpr hact
    have hsp : Game3D.windSpawn now r3 g3 = g3.wind := by
      simp [Game3D.windSpawn, hnl]
    have hex : Game3D.windExpire now g3.wind = g3.wind := by
      simp [Game3D.windExpire, hnl]
    rw [hw, hsp, hex]
  · intro hexp hroll hgo
    have hsp : Game3D.windSpawn now r3 g3
        = ⟨(r3.windForceRoll * 2 - 1) * Game3D.windMaxForce, now + Game3D.windDurationMs⟩ := by
      simp [Game3D.windSpawn, hexp, hroll, hgo]
    have hex : Game3D.windExpire now
        (⟨(r3.windForceRoll * 2 - 1) * Game3D.windMaxForce,
          now + Game3D.windDurationMs⟩ : Game3D.Wind)
        = ⟨(r3.windForceRoll * 2 - 1) * Game3D.windMaxForce, now + Game3D.windDurationMs⟩ := by
      have : ¬ (now > now + Game3D.windDurationMs) := by
        norm_num [Game3D.windDurationMs]
      simp [Game3D.windExpire, this]
    rw [hw, hsp, hex]

/-- C7 witness. -/
theorem C7_wind_supersede_witness :
    (Enhanced2D.computerControl 600 Scenario.rng2WindHit Scenario.base2D).windTimeout = true ∧
    (Game3D.runnerTick 0.01 1000 Scenario.input3None Scenario.rng3WindHit Scenario.c7Wind).wind
      = Scenario.c7Wind.wind :=
  ⟨((C7_wind_supersede 600 Scenario.rng2WindHit Scenario.base2D 0.01 1000 Scenario.input3None
      Scenario.rng3WindHit Scenario.c7Wind (by norm_num)).1
      (by norm_num [Scenario.rng2WindHit, Scenario.rngMiss])).2,
   (C7_wind_supersede 600 Scenario.rng2WindHit Scenario.base2D 0.01 1000 Scenario.input3None
      Scenario.rng3WindHit Scenario.c7Wind (by norm_num)).2.1
      (by norm_num [Scenario.c7Wind, Scenario.base3D])⟩
